import Mathlib

/-
Verification development for the AR viewer page of the repository
(the `AR` component in the unnamed page source).  The definitions below
are a shallow embedding of the session-scoped logic of that component:
tier classification, AR-support probing, the fallback model loader,
model optimization, the select (tap) handler, the per-frame hit-test
reticle update, and the FPS-driven quality downgrade.

Numeric values (positions, scales, matrix entries) are modelled with the
rationals.  The source runs on IEEE doubles, but every operation the
claims exercise is exact at the inputs used, so the rational model agrees
with the source there; the one divergence (division by zero in
applyMatrix4 yields 0 in the rationals and an infinity in IEEE) is noted
at the definition and never reached by affine pose matrices, whose
bottom row is 0 0 0 1.
-/

namespace ARViewer

/-- Tier of the Capability Profile: the value of the performanceMode state,
restricted to the three concrete tiers a running session can hold. -/
inductive Tier
  | low
  | medium
  | high
deriving DecidableEq, Repr

/-- Three-component vector over the rationals, standing for THREE.Vector3. -/
structure Vec3 where
  x : ℚ
  y : ℚ
  z : ℚ
deriving DecidableEq, Repr

/-- Componentwise difference, standing for Vector3.sub (used by
model.position.sub(center) in optimizeModel). -/
def Vec3.sub (a b : Vec3) : Vec3 :=
  ⟨a.x - b.x, a.y - b.y, a.z - b.z⟩

/-- A 4x4 matrix in column-major element order, as THREE stores
Matrix4.elements; out-of-range indices read as 0. -/
def elemAt (e : List ℚ) (i : Nat) : ℚ :=
  e.getD i 0

/-- Vector3.applyMatrix4 from the graphics library: multiply (x, y, z, 1)
by the matrix and divide by the resulting w.  In the rationals 1/0 = 0
where IEEE would give an infinity; the matrices the component feeds in
(controller.matrixWorld) are affine, with bottom row 0 0 0 1, so the
divisor is 1 and the two semantics agree. -/
def applyMatrix4 (v : Vec3) (e : List ℚ) : Vec3 :=
  let d := elemAt e 3 * v.x + elemAt e 7 * v.y + elemAt e 11 * v.z + elemAt e 15
  let w := 1 / d
  ⟨(elemAt e 0 * v.x + elemAt e 4 * v.y + elemAt e 8 * v.z + elemAt e 12) * w,
   (elemAt e 1 * v.x + elemAt e 5 * v.y + elemAt e 9 * v.z + elemAt e 13) * w,
   (elemAt e 2 * v.x + elemAt e 6 * v.y + elemAt e 10 * v.z + elemAt e 14) * w⟩

/-- Vector3.setFromMatrixPosition: read the translation column
(elements 12, 13, 14) of a column-major 4x4 matrix. -/
def setFromMatrixPosition (e : List ℚ) : Vec3 :=
  ⟨elemAt e 12, elemAt e 13, elemAt e 14⟩

/-- Texture encoding, restricted to the two values the component touches. -/
inductive Encoding
  | linear
  | sRGBEnc
deriving DecidableEq, Repr

/-- A texture: the only field the component reads or writes is encoding. -/
structure Texture where
  encoding : Encoding
deriving DecidableEq, Repr

/-- Kind of a mesh material: basic marks a MeshBasicMaterial, standard any
other (lit) material kind arriving from the loader. -/
inductive MatKind
  | basic
  | standard
deriving DecidableEq, Repr

/-- A mesh material, carrying exactly the fields optimizeModel touches:
the kind, the base color as a hex value (absent on colorless materials),
the optional texture map, and the needsUpdate flag. -/
structure Material where
  kind : MatKind
  color : Option Nat
  map : Option Texture
  needsUpdate : Bool
deriving DecidableEq, Repr

/-- The loaded model (gltf.scene): its transform fields, visibility, the
largest dimension of its bounding box at unit scale, and the materials of
its meshes in traversal order.  A uniform scale multiplies every bounding
dimension by the same factor and the −90 degree axis-aligned rotation
permutes the three dimensions, so the largest world bounding dimension of
the object is geomMaxDim * scale. -/
structure Model where
  position : Vec3
  scale : ℚ
  rotationXDeg : ℚ
  visible : Bool
  geomMaxDim : ℚ
  meshes : List Material
deriving DecidableEq, Repr

/-- Largest dimension of the world bounding box of a model under its
current uniform scale. -/
def largestDimension (m : Model) : ℚ :=
  m.geomMaxDim * m.scale

/-- The bounding box measured by Box3.setFromObject at the moment
optimizeModel runs: its center and largest dimension.  The measurement
itself is performed by the graphics runtime, so it enters as data. -/
structure Box3 where
  center : Vec3
  maxDim : ℚ
deriving DecidableEq, Repr

/-- The uniform scale factor optimizeModel applies:
performanceMode === low ? 0.25 : 0.3. -/
def scaleFor : Tier → ℚ
  | Tier.low => 1/4
  | _ => 3/10

/-- The per-mesh branch of optimizeModel.traverse.  Low tier: replace the
material with a MeshBasicMaterial keeping the cloned base color (default
0xcccccc when the material has no color) and the map.  Other tiers: keep
the material object, set needsUpdate to true, and when a map is present
set its encoding to sRGB.  The geometry branch of the source only logs
for large vertex counts and changes no state, so it has no counterpart
here. -/
def optimizeMaterial (tier : Tier) (mat : Material) : Material :=
  if tier = Tier.low then
    { kind := MatKind.basic,
      color := some (match mat.color with | some c => c | none => 0xcccccc),
      map := mat.map,
      needsUpdate := false }
  else
    { mat with needsUpdate := true,
               map := match mat.map with
                      | some t => some { t with encoding := Encoding.sRGBEnc }
                      | none => none }

/-- optimizeModel from the source: subtract the measured box center from
the position, set the uniform scale to the tier factor, set the x
rotation to −90 degrees, and run the material pass over every mesh. -/
def optimizeModel (tier : Tier) (box : Box3) (m : Model) : Model :=
  { m with position := Vec3.sub m.position box.center,
           scale := scaleFor tier,
           rotationXDeg := -90,
           meshes := m.meshes.map (optimizeMaterial tier) }

/-- The placement reticle: visibility flag and its matrix (updated with
matrix.fromArray from a hit pose; matrixAutoUpdate is off in the source,
so the matrix is exactly what the loop writes). -/
structure Reticle where
  visible : Bool
  matrix : List ℚ
deriving DecidableEq, Repr

/-- A hit-test pose: the transform.matrix array handed to fromArray. -/
structure Pose where
  transformMatrix : List ℚ
deriving DecidableEq, Repr

/-- One entry of frame.getHitTestResults; getPose can return null, hence
the optional pose. -/
structure HitResult where
  pose : Option Pose
deriving DecidableEq, Repr

/-- The body of the hit-test branch of the animation loop: a non-empty
result list takes the first result, derives its pose, and when the pose
is non-null sets visible to true and copies the pose matrix; when the
pose is null nothing is written; an empty list sets visible to false. -/
def processHitTestResults (r : Reticle) (results : List HitResult) : Reticle :=
  match results with
  | [] => { r with visible := false }
  | hit :: _ =>
    match hit.pose with
    | some p => { visible := true, matrix := p.transformMatrix }
    | none => r

/-- The guard structure around the hit-test branch in the animation loop:
it runs only when the callback received an XR frame, the closure-captured
performanceMode is not low, and a hit-test source exists.  The
asynchronous request of the source and the session-end listener mutate no
reticle state and are omitted. -/
def renderLoopReticle (tier : Tier) (hasFrame hasSource : Bool)
    (results : List HitResult) (r : Reticle) : Reticle :=
  if hasFrame = true ∧ tier ≠ Tier.low then
    if hasSource = true then processHitTestResults r results else r
  else r

/-- The session-scoped state the select handler reads and writes: the
closure-captured performanceMode, the loaded model reference (null until
the loader succeeds), the modelPlaced flag, the reticle, and the world
matrix of the interaction controller at the moment of the event. -/
structure SessionState where
  performanceMode : Tier
  model : Option Model
  modelPlaced : Bool
  reticle : Reticle
  controllerMatrixWorld : List ℚ
deriving DecidableEq, Repr

/-- onSelect from the source, line for line.  The outer guard is
model && (!reticle.visible || performanceMode === low); inside it the
three branches are: low tier and unplaced places one meter in front of
the controller; visible reticle and unplaced places at the reticle
matrix position; placed clears the flag and hides the model only when
the tier is not low. -/
def onSelect (s : SessionState) : SessionState :=
  match s.model with
  | none => s
  | some m =>
    if s.reticle.visible = false ∨ s.performanceMode = Tier.low then
      if s.performanceMode = Tier.low ∧ s.modelPlaced = false then
        { s with model := some { m with
                   position := applyMatrix4 ⟨0, 0, -1⟩ s.controllerMatrixWorld,
                   visible := true },
                 modelPlaced := true }
      else if s.reticle.visible = true ∧ s.modelPlaced = false then
        { s with model := some { m with
                   position := setFromMatrixPosition s.reticle.matrix,
                   visible := true },
                 modelPlaced := true }
      else if s.modelPlaced = true then
        { s with modelPlaced := false,
                 model := if s.performanceMode ≠ Tier.low
                          then some { m with visible := false }
                          else some m }
      else s
    else s

/-- The ordered fallback list of the loader, exactly as configured. -/
def fallbackPaths : List String :=
  ["/models/result.gltf", "/result.gltf", "/models/fallback.gltf"]

/-- The primary path chosen before loading starts:
isLowEndDevice picks the lower-poly variant. -/
def modelPath (isLowEndDevice : Bool) : String :=
  if isLowEndDevice then "/models/result_low.gltf" else "/models/result.gltf"

/-- Outcome of a run of the loader: every path attempted in order, the
path that succeeded when one did, and the error message written when the
chain was exhausted. -/
structure LoadOutcome where
  attempts : List String
  loaded : Option String
  errorMessage : Option String
deriving DecidableEq, Repr

/-- The recursive loader loadModel(path, index).  The source recurses
with fallbackPaths[index] and index + 1 while index < fallbackPaths.length;
here the suffix fallbackPaths.drop index is passed instead of the index,
which is the same control flow expressed structurally.  The network is
abstracted as the predicate ok deciding which paths load successfully,
mirroring the success and error callbacks of loader.load. -/
def loadModelGo (ok : String → Bool) : String → List String → LoadOutcome
  | path, rest =>
    if ok path = true then
      { attempts := [path], loaded := some path, errorMessage := none }
    else
      match rest with
      | [] =>
        { attempts := [path], loaded := none,
          errorMessage := some "Could not load 3D model. Please try again later." }
      | p :: ps =>
        let r := loadModelGo ok p ps
        { attempts := path :: r.attempts, loaded := r.loaded,
          errorMessage := r.errorMessage }

/-- loadModel(modelPath) as invoked once per startAR call. -/
def loadModel (ok : String → Bool) (isLowEndDevice : Bool) : LoadOutcome :=
  loadModelGo ok (modelPath isLowEndDevice) fallbackPaths

/-- What the AR-support check leaves in component state: the arSupported
flag and the errorMessage string (initially empty). -/
structure ARSupportResult where
  arSupported : Bool
  errorMessage : String
deriving DecidableEq, Repr

/-- checkARSupport from the source, as a function of what the browser
reports: whether navigator.xr exists, whether an immersive-ar session is
supported, and whether an inline session is supported.  When xr exists
and immersive-ar is unsupported, the inline probe only writes state when
inline IS supported; when both probes fail, neither setter runs again and
the error message keeps its initial empty value.  The rejected-promise
catch path writes a separate message and is outside the cases the claims
touch. -/
def checkARSupport (hasXr immersiveOk inlineOk : Bool) : ARSupportResult :=
  if hasXr then
    if immersiveOk then
      { arSupported := true, errorMessage := "" }
    else if inlineOk then
      { arSupported := true,
        errorMessage := "Full AR not supported. Using simplified mode." }
    else
      { arSupported := false, errorMessage := "" }
  else
    { arSupported := false, errorMessage := "WebXR not supported in this browser" }

/-- State read and written by updatePerformanceMode.  reactTier is the
React state value that setPerformanceMode writes; closureTier is the
value of the performanceMode binding captured by the closures created
inside startAR.  In the source these are distinct: setPerformanceMode
schedules a re-render with a new binding, but the animation loop,
updatePerformanceMode, optimizeModel and onSelect keep the binding of
the render in which startAR ran, which is a const and never changes.
downgradeRuns counts how many times the downgrade block (light removal,
pixel clamp, antialias off, re-optimization) has executed: it is a ghost
counter for stating the once-per-session property, not a source field. -/
structure QualityState where
  reactTier : Tier
  closureTier : Tier
  hasDirectionalLight : Bool
  pxScale : ℚ
  antialias : Bool
  downgradeRuns : Nat
deriving DecidableEq, Repr

/-- updatePerformanceMode(currentFps) from the source: when the sampled
FPS is below 20 and the (closure-captured) performanceMode is not low, it
calls setPerformanceMode(low), removes every directional light from the
scene, sets the pixel ratio to 1, disables antialiasing, and re-runs
optimizeModel on a loaded model.  The guard and every later read of
performanceMode inside the session use closureTier, which the React
setter cannot change. -/
def updatePerformanceMode (currentFps : Nat) (s : QualityState) : QualityState :=
  if currentFps < 20 ∧ s.closureTier ≠ Tier.low then
    { s with reactTier := Tier.low,
             hasDirectionalLight := false,
             pxScale := 1,
             antialias := false,
             downgradeRuns := s.downgradeRuns + 1 }
  else s

/-- Feed the once-per-second FPS samples of a session into the policy in
order (the animation loop computes one sample per elapsed second and
calls updatePerformanceMode with it). -/
def runFpsSamples (s : QualityState) (samples : List Nat) : QualityState :=
  samples.foldl (fun st f => updatePerformanceMode f st) s

/-- The quality state of a session that starts in medium tier: a
directional light is in the scene, the pixel ratio is clamped to 1.5,
antialiasing is on, and the downgrade block has not run. -/
def mediumStart : QualityState :=
  { reactTier := Tier.medium, closureTier := Tier.medium,
    hasDirectionalLight := true, pxScale := 3/2, antialias := true,
    downgradeRuns := 0 }

/-- The error message the loader writes when every path has failed. -/
def loadFailureMessage : String :=
  "Could not load 3D model. Please try again later."

/-- A sample loaded model: unit scale, untouched rotation, hidden, with a
largest bounding dimension of 2 and no meshes. -/
def sampleModel : Model :=
  { position := ⟨0, 0, 0⟩, scale := 1, rotationXDeg := 0, visible := false,
    geomMaxDim := 2, meshes := [] }

/-- A sample measured bounding box centered at (1, 1, 1) with largest
dimension 2. -/
def sampleBox : Box3 :=
  { center := ⟨1, 1, 1⟩, maxDim := 2 }

/-- The identity transform as a column-major element array. -/
def idMatrix : List ℚ :=
  [1, 0, 0, 0, 0, 1, 0, 0, 0, 0, 1, 0, 0, 0, 0, 1]

/-- A controller world matrix: identity rotation, translation (2, 3, 4). -/
def ctrlMatrix : List ℚ :=
  [1, 0, 0, 0, 0, 1, 0, 0, 0, 0, 1, 0, 2, 3, 4, 1]

/-- A visible reticle whose matrix places it at (5, 6, 7). -/
def visibleReticle : Reticle :=
  { visible := true, matrix := [1, 0, 0, 0, 0, 1, 0, 0, 0, 0, 1, 0, 5, 6, 7, 1] }

/-- Medium-tier session: model loaded and unplaced, reticle visible. -/
def mediumVisibleUnplaced : SessionState :=
  { performanceMode := Tier.medium, model := some sampleModel,
    modelPlaced := false, reticle := visibleReticle,
    controllerMatrixWorld := idMatrix }

/-- Medium-tier session: model loaded and placed, reticle visible. -/
def mediumVisiblePlaced : SessionState :=
  { mediumVisibleUnplaced with modelPlaced := true }

/-- Low-tier session: model loaded, visible and placed. -/
def lowPlaced : SessionState :=
  { performanceMode := Tier.low, model := some { sampleModel with visible := true },
    modelPlaced := true, reticle := { visible := false, matrix := [0] },
    controllerMatrixWorld := ctrlMatrix }

/-- A lit sample material with a red base color, a linear-encoded map,
and a clear needsUpdate flag. -/
def sampleMaterial : Material :=
  { kind := MatKind.standard, color := some 0xff0000,
    map := some { encoding := Encoding.linear }, needsUpdate := false }

/-- High-tier session with no model loaded yet. -/
def noModelState : SessionState :=
  { performanceMode := Tier.high, model := none, modelPlaced := false,
    reticle := { visible := false, matrix := [] }, controllerMatrixWorld := [] }

/-- C1: the claim says a select on medium or high tier with the reticle
visible and the asset unplaced places the asset, and a select while
placed toggles it back.  In the source the outer guard of onSelect is
model and (not reticle.visible, or low tier), so on medium tier a select
while the reticle is visible does nothing at all, whether the asset is
placed or not: the place-at-reticle branch sits behind a guard that
requires the reticle NOT visible and is unreachable.  This theorem
evaluates onSelect at both failing inputs and shows the state is
returned unchanged. -/
theorem c1_medium_select_with_visible_reticle_is_dead :
    onSelect mediumVisibleUnplaced = mediumVisibleUnplaced ∧
    (onSelect mediumVisibleUnplaced).modelPlaced = false ∧
    onSelect mediumVisiblePlaced = mediumVisiblePlaced ∧
    mediumVisibleUnplaced.performanceMode = Tier.medium ∧
    mediumVisibleUnplaced.reticle.visible = true ∧
    mediumVisibleUnplaced.model = some sampleModel := by
  decide

/-- C2: the claim says the downgrade actions run at most once per
session.  In the source the guard of updatePerformanceMode reads the
performanceMode binding captured when startAR ran, which the React
setter never changes, so a medium-tier session that samples FPS 10 in
two consecutive seconds runs the downgrade block twice: the captured
tier is still medium at the second sample even though the React state
already reached low after the first. -/
theorem c2_downgrade_block_reruns_on_second_low_sample :
    (runFpsSamples mediumStart [10, 10]).downgradeRuns = 2 ∧
    (runFpsSamples mediumStart [10, 10]).closureTier = Tier.medium ∧
    (runFpsSamples mediumStart [10, 10]).reactTier = Tier.low ∧
    mediumStart.downgradeRuns = 0 := by
  decide

/-- C3 counterexample: optimizing the sample model (largest dimension 2)
on medium tier leaves a largest dimension of 2 * 0.3 = 0.6, which equals
neither the medium-tier constant 0.3 nor the low-tier constant 0.25, so
the largest bounding dimension after optimization is not the
tier-specific constant. -/
theorem c3_counterexample :
    largestDimension (optimizeModel Tier.medium sampleBox sampleModel) = 3/5 ∧
    scaleFor Tier.medium = 3/10 ∧ scaleFor Tier.low = 1/4 ∧
    ((3 : ℚ)/5 ≠ 3/10) ∧ ((3 : ℚ)/5 ≠ 1/4) := by
  refine ⟨?_, rfl, rfl, ?_, ?_⟩ <;>
    norm_num [largestDimension, optimizeModel, scaleFor, sampleBox, sampleModel]

/-- C3 amended: optimizeModel recenters the model by subtracting the
measured bounding-box center from its position and applies a fixed
uniform tier-specific scale FACTOR (0.25 for low, 0.3 otherwise); it
does not normalize by the bounding size, so the largest bounding
dimension afterwards is the intrinsic largest dimension times the
factor, not the factor itself. -/
theorem c3_recenter_and_fixed_scale_factor (tier : Tier) (box : Box3) (m : Model) :
    (optimizeModel tier box m).position = Vec3.sub m.position box.center ∧
    (optimizeModel tier box m).scale = scaleFor tier ∧
    (optimizeModel tier box m).rotationXDeg = -90 ∧
    largestDimension (optimizeModel tier box m) = m.geomMaxDim * scaleFor tier := by
  exact ⟨rfl, rfl, rfl, rfl⟩

/-- C4: when the primary path and every fallback path fail, the loader
attempts the primary followed by each fallback in order, loads nothing,
writes the could-not-load error message, and makes exactly
1 + 3 attempts, after which the recursion has no further branch to
take. -/
theorem c4_fallback_chain_exhaustion (ok : String → Bool) (isLowEnd : Bool)
    (hfail : ∀ p, ok p = false) :
    loadModel ok isLowEnd =
      { attempts := modelPath isLowEnd :: fallbackPaths, loaded := none,
        errorMessage := some loadFailureMessage } ∧
    (loadModel ok isLowEnd).attempts.length = 1 + fallbackPaths.length := by
  constructor <;>
    simp [loadModel, loadModelGo, fallbackPaths, modelPath, loadFailureMessage, hfail]

/-- C4 witness: the chain theorem applied to the environment in which
every path fails, on a non-low-end device. -/
theorem c4_fallback_chain_exhaustion_witness :
    loadModel (fun _ => false) false =
      { attempts := modelPath false :: fallbackPaths, loaded := none,
        errorMessage := some loadFailureMessage } ∧
    (loadModel (fun _ => false) false).attempts.length = 1 + fallbackPaths.length :=
  c4_fallback_chain_exhaustion (fun _ => false) false (fun _ => rfl)

/-- Helper for C9: the recursive loader attempts at most one path plus
one per remaining fallback entry, whatever the success predicate does. -/
theorem loadModelGo_attempts_length_le (ok : String → Bool) :
    ∀ (rest : List String) (path : String),
      (loadModelGo ok path rest).attempts.length ≤ 1 + rest.length := by
  intro rest
  induction rest with
  | nil =>
    intro path
    by_cases h : ok path = true <;> simp [loadModelGo, h]
  | cons p ps ih =>
    intro path
    by_cases h : ok path = true
    · simp [loadModelGo, h]
    · have hp := ih p
      simp [loadModelGo, h]
      omega

/-- C9: every run of the loader terminates after at most
1 + length of the fallback list = 4 attempts: each failure step consumes
one entry of the remaining fallback suffix and the recursion stops when
the suffix is empty. -/
theorem c9_loader_makes_at_most_four_attempts (ok : String → Bool) (isLowEnd : Bool) :
    (loadModel ok isLowEnd).attempts.length ≤ 1 + fallbackPaths.length ∧
    (loadModel ok isLowEnd).attempts.length ≤ 4 := by
  have h := loadModelGo_attempts_length_le ok fallbackPaths (modelPath isLowEnd)
  exact ⟨h, by simpa [fallbackPaths] using h⟩

/-- C5 counterexample: the claim says every frame with a non-empty
hit-test result list sets the reticle visible.  When the first result
has a null pose the source writes nothing, so an invisible reticle stays
invisible on a frame whose result list is non-empty. -/
theorem c5_counterexample :
    renderLoopReticle Tier.medium true true [{ pose := none }]
        { visible := false, matrix := [0] } =
      { visible := false, matrix := [0] } ∧
    ([{ pose := none }] ≠ ([] : List HitResult)) := by
  decide

/-- C5 amended: on a non-low tier, in a frame with a hit-test source, an
empty result list sets reticle visibility to false; a non-empty list
whose first result has a non-null pose sets visibility to true and
copies the pose matrix; a non-empty list whose first result has a null
pose leaves the reticle untouched. -/
theorem c5_reticle_update (tier : Tier) (r : Reticle) (htier : tier ≠ Tier.low) :
    (renderLoopReticle tier true true [] r = { r with visible := false }) ∧
    (∀ (hit : HitResult) (rest : List HitResult) (p : Pose), hit.pose = some p →
        renderLoopReticle tier true true (hit :: rest) r =
          { visible := true, matrix := p.transformMatrix }) ∧
    (∀ (hit : HitResult) (rest : List HitResult), hit.pose = none →
        renderLoopReticle tier true true (hit :: rest) r = r) := by
  refine ⟨?_, ?_, ?_⟩
  · simp [renderLoopReticle, processHitTestResults, htier]
  · intro hit rest p hp
    simp [renderLoopReticle, processHitTestResults, htier, hp]
  · intro hit rest hp
    simp [renderLoopReticle, processHitTestResults, htier, hp]

/-- C5 witness: the amended theorem applied on medium tier to a
one-element result list whose pose matrix is the singleton 9. -/
theorem c5_reticle_update_witness :
    renderLoopReticle Tier.medium true true [{ pose := some { transformMatrix := [9] } }]
        { visible := false, matrix := [0] } =
      { visible := true, matrix := [9] } :=
  (c5_reticle_update Tier.medium { visible := false, matrix := [0] }
      (by decide)).2.1 { pose := some { transformMatrix := [9] } } []
    { transformMatrix := [9] } rfl

/-- C6 counterexample: the claim says a select while the asset is placed
changes nothing on low tier.  In the source the third branch of onSelect
runs (its guard is only modelPlaced) and clears the placed flag, keeping
position and visibility, so the state does change: placed goes from true
to false. -/
theorem c6_counterexample :
    (onSelect lowPlaced).modelPlaced = false ∧
    lowPlaced.modelPlaced = true ∧
    lowPlaced.performanceMode = Tier.low ∧
    onSelect lowPlaced ≠ lowPlaced := by
  decide

/-- C6 amended: on low tier with a loaded model, a select while unplaced
places the model one meter in front of the controller (the point
(0, 0, −1) taken through the controller world matrix), makes it visible
and sets the placed flag; a select while placed clears the placed flag
and changes nothing else (position and visibility stay), so the next
select re-places the model. -/
theorem c6_low_tier_select (s : SessionState) (m : Model)
    (hm : s.model = some m) (hlow : s.performanceMode = Tier.low) :
    (s.modelPlaced = false →
        onSelect s =
          { s with
            model := some { m with
              position := applyMatrix4 ⟨0, 0, -1⟩ s.controllerMatrixWorld,
              visible := true },
            modelPlaced := true }) ∧
    (s.modelPlaced = true → onSelect s = { s with modelPlaced := false }) := by
  constructor <;> intro h <;>
    simp [onSelect, hm, hlow, h]

/-- C6 witness: the amended theorem applied to the placed low-tier
sample state. -/
theorem c6_low_tier_select_witness :
    onSelect lowPlaced = { lowPlaced with modelPlaced := false } :=
  (c6_low_tier_select lowPlaced { sampleModel with visible := true } rfl rfl).2 rfl

/-- C7 counterexample: the claim says that when neither an immersive-ar
nor an inline session is supported a descriptive error message is
stored.  In the source the inline probe only writes state when inline IS
supported, so with navigator.xr present and both probes negative the
error message keeps its initial empty value: no message is stored. -/
theorem c7_counterexample :
    checkARSupport true false false = { arSupported := false, errorMessage := "" } := by
  decide

/-- C7 amended: the support check stores the WebXR-not-supported message
exactly when navigator.xr is absent; with xr present it marks support
and stores no message when immersive-ar works, marks support with the
simplified-mode message when only inline works, and when neither works
it leaves arSupported false (disabling the start button) and stores no
error message at all. -/
theorem c7_support_check_cases :
    (∀ immersiveOk inlineOk,
        checkARSupport false immersiveOk inlineOk =
          { arSupported := false,
            errorMessage := "WebXR not supported in this browser" }) ∧
    (∀ inlineOk,
        checkARSupport true true inlineOk =
          { arSupported := true, errorMessage := "" }) ∧
    (checkARSupport true false true =
      { arSupported := true,
        errorMessage := "Full AR not supported. Using simplified mode." }) ∧
    (checkARSupport true false false =
      { arSupported := false, errorMessage := "" }) := by
  refine ⟨fun i j => ?_, fun j => ?_, rfl, rfl⟩ <;> rfl

/-- C8 counterexample: the claim says the optimization step leaves every
material unchanged on medium and high tier.  On medium tier the step
mutates the material: it sets needsUpdate to true and rewrites the map
encoding to sRGB, so the material object after the pass differs from the
one before. -/
theorem c8_counterexample :
    optimizeMaterial Tier.medium sampleMaterial ≠ sampleMaterial ∧
    (optimizeMaterial Tier.medium sampleMaterial).needsUpdate = true ∧
    sampleMaterial.needsUpdate = false ∧
    (optimizeModel Tier.medium sampleBox
        { sampleModel with meshes := [sampleMaterial] }).meshes ≠ [sampleMaterial] := by
  decide

/-- C8 amended: optimizeModel runs the material pass over every mesh; on
low tier it replaces the material with a basic one keeping the base
color (default 0xcccccc when absent) and the map; on medium and high
tier it keeps the material (kind and color unchanged) but sets its
needsUpdate flag and rewrites the encoding of a present map to sRGB. -/
theorem c8_material_pass (tier : Tier) (box : Box3) (m : Model) :
    (optimizeModel tier box m).meshes = m.meshes.map (optimizeMaterial tier) ∧
    (∀ mat : Material, tier = Tier.low →
        optimizeMaterial tier mat =
          { kind := MatKind.basic,
            color := some (match mat.color with | some c => c | none => 0xcccccc),
            map := mat.map, needsUpdate := false }) ∧
    (∀ mat : Material, tier ≠ Tier.low →
        (optimizeMaterial tier mat).kind = mat.kind ∧
        (optimizeMaterial tier mat).color = mat.color ∧
        (optimizeMaterial tier mat).needsUpdate = true ∧
        (optimizeMaterial tier mat).map =
          Option.map (fun t => { t with encoding := Encoding.sRGBEnc }) mat.map) := by
  refine ⟨rfl, ?_, ?_⟩
  · intro mat h
    simp [optimizeMaterial, h]
  · intro mat h
    refine ⟨?_, ?_, ?_, ?_⟩ <;>
      cases hmap : mat.map <;>
        simp [optimizeMaterial, h, hmap]

/-- C8 witness: the material pass applied on low and on medium tier to
the lit sample material. -/
theorem c8_material_pass_witness :
    optimizeMaterial Tier.low sampleMaterial =
      { kind := MatKind.basic, color := some 0xff0000,
        map := some { encoding := Encoding.linear }, needsUpdate := false } ∧
    (optimizeMaterial Tier.medium sampleMaterial).needsUpdate = true :=
  ⟨(c8_material_pass Tier.low sampleBox sampleModel).2.1 sampleMaterial rfl,
   ((c8_material_pass Tier.medium sampleBox sampleModel).2.2 sampleMaterial
       (by decide)).2.2.1⟩

/-- C10: a select event that arrives while the model reference is still
null returns the session state unchanged on every tier: the outer guard
of onSelect requires a loaded model. -/
theorem c10_select_before_load_is_noop (s : SessionState) (h : s.model = none) :
    onSelect s = s := by
  unfold onSelect
  rw [h]

/-- C10 witness: the no-op theorem applied to a high-tier state with no
model loaded. -/
theorem c10_select_before_load_is_noop_witness :
    onSelect noModelState = noModelState :=
  c10_select_before_load_is_noop noModelState rfl

end ARViewer
